import Mathlib

/-!
Verification development for the PyAppAuto repository (`pyappauto/__init__.py`).

The module defines a single class `Instance` wrapping Win32 windowing calls,
input synthesis and template matching.  We embed the class shallowly:

* `Instance` is the mutable state of a Python `Instance` object
  (`_hwnd`, `__process`, `__kill`, `_debug`).
* External effects (Win32 API, subprocess, OpenCV) are recorded as an
  explicit trace of `ApiCall` values; the values the environment returns
  (window rectangles, monitor lists, template-match results, ...) are
  supplied by an `Env` record of oracles.
* Each method becomes a function `Env → Instance → args → Res α` where
  `Res α` packages the Python return-or-raise outcome, the state after the
  call, and the list of native API calls performed.

Python truthiness of `self._hwnd` (both `None` and `0` are falsy) is kept
faithfully via `optTruthy`.
-/

/-- Exception classes of `pyappauto.utils.errors` raised by the module. -/
inductive Err where
  | NoOpenedProcess
  | ProcessAlreadyOpened
  | InvalidPath
  | NoHwnd
  | InvalidScreen
deriving DecidableEq, Repr

/-- One native call into the OS windowing API, the subprocess module, or the
vision library, with the arguments the Python code passes. -/
inductive ApiCall where
  | popen (path : String)
  | getWindowsWithTitle (title : String)
  | spawnThread
  | terminate (pid : Nat)
  | postMessage (hwnd : Int) (msg : Nat) (wparam lparam : Int)
  | sendMessage (hwnd : Int) (msg : Nat) (wparam lparam : Int)
  | enumDisplayMonitors
  | setWindowPos (hwnd insertAfter x y cx cy : Int) (flags : Nat)
  | showWindow (hwnd : Int) (cmd : Nat)
  | getWindowRect (hwnd : Int)
  | getWindowDC (hwnd : Int)
  | createDCFromHandle
  | createCompatibleDC
  | createBitmap
  | createCompatibleBitmap (w h : Int)
  | selectObject
  | bitBlt (w h : Int)
  | getInfo
  | getBitmapBits
  | imread (path : String)
  | cvtColor
  | matchTemplate
  | minMaxLoc
deriving DecidableEq, Repr

/-- A window rectangle as returned by `win32gui.GetWindowRect`:
`(left, top, right, bottom)`. -/
structure WinRect where
  left : Int
  top : Int
  right : Int
  bottom : Int
deriving DecidableEq, Repr

/-- Oracle for everything the environment returns to the Python code:
filesystem existence, process ids from `subprocess.Popen`, window lookup by
title, window rectangles, the monitor list, template image shapes and the
`matchTemplate`/`minMaxLoc` outcome `(max_val, max_loc.x, max_loc.y)`. -/
structure Env where
  pathExists : String → Bool
  popenPid : String → Nat
  findWindow : String → Option Int
  windowRect : Int → WinRect
  monitors : List WinRect
  imageShape : String → Nat × Nat
  matchResult : Int → String → ℚ × Int × Int

/-- State of a Python `Instance` object: `_hwnd`, `__process`, `__kill`,
`_debug`. -/
structure Instance where
  hwnd : Option Int
  process : Option Nat
  kill : Bool
  debug : Bool
deriving DecidableEq, Repr

/-- Decidable equality for `Except`, used to evaluate results on concrete
inputs. -/
instance {ε α : Type} [DecidableEq ε] [DecidableEq α] : DecidableEq (Except ε α) := fun x y =>
  match x, y with
  | Except.ok a, Except.ok b =>
      if h : a = b then isTrue (by rw [h]) else isFalse (by intro hc; cases hc; exact h rfl)
  | Except.ok _, Except.error _ => isFalse (by intro hc; cases hc)
  | Except.error _, Except.ok _ => isFalse (by intro hc; cases hc)
  | Except.error e, Except.error f =>
      if h : e = f then isTrue (by rw [h]) else isFalse (by intro hc; cases hc; exact h rfl)

/-- Outcome of one method call: the Python return value or raised exception,
the instance state afterwards, and the native API calls performed. -/
structure Res (α : Type) where
  ret : Except Err α
  state : Instance
  calls : List ApiCall
deriving DecidableEq, Repr

/-! Win32 constants used by the module (values of `win32con`). -/

def WM_CLOSE : Nat := 0x0010
def WM_KEYDOWN : Nat := 0x0100
def WM_KEYUP : Nat := 0x0101
def WM_CHAR : Nat := 0x0102
def WM_LBUTTONDOWN : Nat := 0x0201
def WM_LBUTTONUP : Nat := 0x0202
def WM_RBUTTONDOWN : Nat := 0x0204
def WM_RBUTTONUP : Nat := 0x0205
def MK_LBUTTON : Int := 0x0001
def MK_RBUTTON : Int := 0x0002
def VK_RETURN : Int := 0x0D
def VK_TAB : Int := 0x09
def SW_MAXIMIZE : Nat := 3
def SW_NORMAL : Nat := 1
def SWP_NOSIZE : Nat := 0x0001
def SWP_NOMOVE : Nat := 0x0002
def SWP_NOZORDER : Nat := 0x0004
def HWND_TOP : Int := 0

/-- Python truthiness of an optional integer: `None` and `0` are falsy. -/
def optTruthy : Option Int → Bool
  | none => false
  | some h => h != 0

/-- Truthiness of `self._hwnd`, the guard of every precondition check. -/
def hwndTruthy (s : Instance) : Bool :=
  optTruthy s.hwnd

/-- The integer value of the attached handle (only meaningful when
`hwndTruthy` holds). -/
def hwndVal (s : Instance) : Int :=
  s.hwnd.getD 0

/-- Semantics of `win32api.MAKELONG(x, y)`: low word from `x`, high word
from `y`, each reduced mod 2^16. -/
def makelong (x y : Int) : Int :=
  x.emod 65536 + y.emod 65536 * 65536

/-- Semantics of Python `ord` on a one-character string. -/
def pyOrd (t : String) : Int :=
  ((t.toList.headD (Char.ofNat 0)).toNat : Int)

/-- Semantics of Python `str.lower()` on the keys the module compares
(`enter`, `tab`): character-wise lowercasing. -/
def pyLower (t : String) : String :=
  String.mk (t.data.map Char.toLower)

/-- The constructor `Instance.__init__(hwnd, debug)`: fields are initialised
and a close-handler thread is spawned exactly when `hwnd` is truthy. -/
def Instance.mkInstance (hwnd : Option Int) (debug : Bool) : Instance × List ApiCall :=
  (⟨hwnd, none, false, debug⟩, if optTruthy hwnd then [ApiCall.spawnThread] else [])

/-- Method `Instance.open` of the source (named `openApp` here because
`open` is a Lean keyword).  Checks the already-opened and path preconditions,
starts the subprocess, looks the window up by title, and raises `NoHwnd`
when the lookup fails or yields a falsy handle; on success a close-handler
thread is spawned. -/
def Instance.openApp (env : Env) (s : Instance) (exe_path app_title : String) : Res Unit :=
  if hwndTruthy s then
    ⟨Except.error Err.ProcessAlreadyOpened, s, []⟩
  else if !env.pathExists exe_path then
    ⟨Except.error Err.InvalidPath, s, []⟩
  else
    let p := env.popenPid exe_path
    let s1 := { s with process := some p }
    match env.findWindow app_title with
    | none =>
        ⟨Except.error Err.NoHwnd, s1, [ApiCall.popen exe_path, ApiCall.getWindowsWithTitle app_title]⟩
    | some h =>
        let s2 := { s1 with hwnd := some h }
        if h == 0 then
          ⟨Except.error Err.NoHwnd, s2, [ApiCall.popen exe_path, ApiCall.getWindowsWithTitle app_title]⟩
        else
          ⟨Except.ok (), s2,
            [ApiCall.popen exe_path, ApiCall.getWindowsWithTitle app_title, ApiCall.spawnThread]⟩

/-- Method `Instance.close`: returns at once when the kill flag is set,
raises `NoOpenedProcess` on a falsy handle, otherwise terminates the
subprocess when one is held (else posts `WM_CLOSE`) and clears both the
subprocess reference and the handle. -/
def Instance.close (env : Env) (s : Instance) : Res Unit :=
  if s.kill then
    ⟨Except.ok (), s, []⟩
  else if !hwndTruthy s then
    ⟨Except.error Err.NoOpenedProcess, s, []⟩
  else
    let calls := match s.process with
      | some p => [ApiCall.terminate p]
      | none => [ApiCall.postMessage (hwndVal s) WM_CLOSE 0 0]
    ⟨Except.ok (), { s with kill := true, process := none, hwnd := none }, calls⟩

/-- Method `Instance.set_monitor`: enumerates the monitors and, when the
index is in the accepted range (Python indexing, negatives allowed), moves
the window to the top-left of that monitor with `SWP_NOSIZE`. -/
def Instance.set_monitor (env : Env) (s : Instance) (monitor_number : Int) : Res Unit :=
  if !hwndTruthy s then
    ⟨Except.error Err.NoOpenedProcess, s, []⟩
  else
    let mons := env.monitors
    let L : Int := mons.length
    if monitor_number < L ∧ -L < monitor_number then
      let idx : Nat := (if 0 ≤ monitor_number then monitor_number else L + monitor_number).toNat
      let rect := mons.getD idx ⟨0, 0, 0, 0⟩
      ⟨Except.ok (), s,
        [ApiCall.enumDisplayMonitors,
         ApiCall.setWindowPos (hwndVal s) HWND_TOP rect.left rect.top 0 0 SWP_NOSIZE]⟩
    else
      ⟨Except.error Err.InvalidScreen, s, [ApiCall.enumDisplayMonitors]⟩

/-- Method `Instance.enter_full_screen`: `ShowWindow(hwnd, SW_MAXIMIZE)`. -/
def Instance.enter_full_screen (env : Env) (s : Instance) : Res Unit :=
  if !hwndTruthy s then
    ⟨Except.error Err.NoOpenedProcess, s, []⟩
  else
    ⟨Except.ok (), s, [ApiCall.showWindow (hwndVal s) SW_MAXIMIZE]⟩

/-- Method `Instance.exit_full_screen`: `ShowWindow(hwnd, SW_NORMAL)`. -/
def Instance.exit_full_screen (env : Env) (s : Instance) : Res Unit :=
  if !hwndTruthy s then
    ⟨Except.error Err.NoOpenedProcess, s, []⟩
  else
    ⟨Except.ok (), s, [ApiCall.showWindow (hwndVal s) SW_NORMAL]⟩

/-- Method `Instance.get_window_size`: `(right - left, bottom - top)` of the
window rectangle. -/
def Instance.get_window_size (env : Env) (s : Instance) : Res (Int × Int) :=
  if !hwndTruthy s then
    ⟨Except.error Err.NoOpenedProcess, s, []⟩
  else
    let rect := env.windowRect (hwndVal s)
    ⟨Except.ok (rect.right - rect.left, rect.bottom - rect.top), s,
      [ApiCall.getWindowRect (hwndVal s)]⟩

/-- Method `Instance.get_window_position`: each coordinate of the window
rectangle, clamped below at `0`. -/
def Instance.get_window_position (env : Env) (s : Instance) : Res (Int × Int) :=
  if !hwndTruthy s then
    ⟨Except.error Err.NoOpenedProcess, s, []⟩
  else
    let rect := env.windowRect (hwndVal s)
    let x := if 0 ≤ rect.left then rect.left else 0
    let y := if 0 ≤ rect.top then rect.top else 0
    ⟨Except.ok (x, y), s, [ApiCall.getWindowRect (hwndVal s)]⟩

/-- Method `Instance.set_window_dimensions`: reads the clamped position via
`get_window_position`, then one `SetWindowPos` with
`SWP_NOMOVE | SWP_NOZORDER`. -/
def Instance.set_window_dimensions (env : Env) (s : Instance) (width height : Int) : Res Unit :=
  if !hwndTruthy s then
    ⟨Except.error Err.NoOpenedProcess, s, []⟩
  else
    let posRes := Instance.get_window_position env s
    match posRes.ret with
    | Except.ok (x, y) =>
        ⟨Except.ok (), s,
          posRes.calls ++
            [ApiCall.setWindowPos (hwndVal s) 0 x y width height (SWP_NOMOVE ||| SWP_NOZORDER)]⟩
    | Except.error e => ⟨Except.error e, s, posRes.calls⟩

/-- Method `Instance.set_window_position`: one `SetWindowPos` with
`HWND_TOP` and `SWP_NOSIZE`. -/
def Instance.set_window_position (env : Env) (s : Instance) (x y : Int) : Res Unit :=
  if !hwndTruthy s then
    ⟨Except.error Err.NoOpenedProcess, s, []⟩
  else
    ⟨Except.ok (), s, [ApiCall.setWindowPos (hwndVal s) HWND_TOP x y 0 0 SWP_NOSIZE]⟩

/-- Method `Instance.left_click`: `WM_LBUTTONDOWN` then `WM_LBUTTONUP` at
`MAKELONG(x, y)`. -/
def Instance.left_click (env : Env) (s : Instance) (x y : Int) : Res Unit :=
  if !hwndTruthy s then
    ⟨Except.error Err.NoOpenedProcess, s, []⟩
  else
    ⟨Except.ok (), s,
      [ApiCall.sendMessage (hwndVal s) WM_LBUTTONDOWN MK_LBUTTON (makelong x y),
       ApiCall.sendMessage (hwndVal s) WM_LBUTTONUP MK_LBUTTON (makelong x y)]⟩

/-- Method `Instance.right_click`: `WM_RBUTTONDOWN` then `WM_RBUTTONUP` at
`MAKELONG(x, y)`. -/
def Instance.right_click (env : Env) (s : Instance) (x y : Int) : Res Unit :=
  if !hwndTruthy s then
    ⟨Except.error Err.NoOpenedProcess, s, []⟩
  else
    ⟨Except.ok (), s,
      [ApiCall.sendMessage (hwndVal s) WM_RBUTTONDOWN MK_RBUTTON (makelong x y),
       ApiCall.sendMessage (hwndVal s) WM_RBUTTONUP MK_RBUTTON (makelong x y)]⟩

/-- Method `Instance.right_double_click`: precondition check, then two calls
of `right_click`. -/
def Instance.right_double_click (env : Env) (s : Instance) (x y : Int) : Res Unit :=
  if !hwndTruthy s then
    ⟨Except.error Err.NoOpenedProcess, s, []⟩
  else
    let r1 := Instance.right_click env s x y
    let r2 := Instance.right_click env r1.state x y
    ⟨r2.ret, r2.state, r1.calls ++ r2.calls⟩

/-- Method `Instance.left_double_click`: precondition check, then two calls
of `left_click`. -/
def Instance.left_double_click (env : Env) (s : Instance) (x y : Int) : Res Unit :=
  if !hwndTruthy s then
    ⟨Except.error Err.NoOpenedProcess, s, []⟩
  else
    let r1 := Instance.left_click env s x y
    let r2 := Instance.left_click env r1.state x y
    ⟨r2.ret, r2.state, r1.calls ++ r2.calls⟩

/-- Argument of `press_key`: a Python `int` or `str`. -/
inductive Key where
  | int (k : Int)
  | str (t : String)
deriving DecidableEq, Repr

/-- Method `Instance.press_key`: a one-character string sends `WM_CHAR`; the
strings whose lowercase form is `enter` or `tab` send `WM_KEYDOWN` then
`WM_KEYUP` of the virtual key; any other string sends nothing; a truthy
(nonzero) integer sends `WM_KEYUP` twice (the source sends `WM_KEYUP` on
both lines); the integer `0` sends nothing. -/
def Instance.press_key (env : Env) (s : Instance) (key : Key) : Res Unit :=
  if !hwndTruthy s then
    ⟨Except.error Err.NoOpenedProcess, s, []⟩
  else
    match key with
    | Key.str t =>
        if t.length == 1 then
          ⟨Except.ok (), s, [ApiCall.sendMessage (hwndVal s) WM_CHAR (pyOrd t) 0]⟩
        else if pyLower t == "enter" then
          ⟨Except.ok (), s,
            [ApiCall.sendMessage (hwndVal s) WM_KEYDOWN VK_RETURN 0,
             ApiCall.sendMessage (hwndVal s) WM_KEYUP VK_RETURN 0]⟩
        else if pyLower t == "tab" then
          ⟨Except.ok (), s,
            [ApiCall.sendMessage (hwndVal s) WM_KEYDOWN VK_TAB 0,
             ApiCall.sendMessage (hwndVal s) WM_KEYUP VK_TAB 0]⟩
        else
          ⟨Except.ok (), s, []⟩
    | Key.int k =>
        if k != 0 then
          ⟨Except.ok (), s,
            [ApiCall.sendMessage (hwndVal s) WM_KEYUP k 0,
             ApiCall.sendMessage (hwndVal s) WM_KEYUP k 0]⟩
        else
          ⟨Except.ok (), s, []⟩

/-- Method `Instance.typewrite`: one `WM_CHAR` `SendMessage` per character
of the text. -/
def Instance.typewrite (env : Env) (s : Instance) (text : String) : Res Unit :=
  if !hwndTruthy s then
    ⟨Except.error Err.NoOpenedProcess, s, []⟩
  else
    ⟨Except.ok (), s,
      text.toList.map (fun c => ApiCall.sendMessage (hwndVal s) WM_CHAR (c.toNat : Int) 0)⟩

/-- Method `Instance.find_image_on_screen`: precondition and path checks,
then the fixed capture pipeline (imread, GetWindowRect, DC and bitmap
calls, BitBlt, buffer reads, cvtColor), exactly one `matchTemplate`, one
`minMaxLoc`; returns `None` when the confidence is strictly below the
threshold, else the match location shifted by the window origin plus half
the template size (Python floor division). -/
def Instance.find_image_on_screen (env : Env) (s : Instance) (image_path : String)
    (confidence_threshhold : ℚ) : Res (Option (Int × Int)) :=
  if !hwndTruthy s then
    ⟨Except.error Err.NoOpenedProcess, s, []⟩
  else if !env.pathExists image_path then
    ⟨Except.error Err.InvalidPath, s, []⟩
  else
    let h := hwndVal s
    let shape := env.imageShape image_path
    let rect := env.windowRect h
    let width := rect.right - rect.left
    let height := rect.bottom - rect.top
    let mr := env.matchResult h image_path
    let confidence := mr.1
    let match_loc := mr.2
    let calls :=
      [ApiCall.imread image_path, ApiCall.getWindowRect h, ApiCall.getWindowDC h,
       ApiCall.createDCFromHandle, ApiCall.createCompatibleDC, ApiCall.createBitmap,
       ApiCall.createCompatibleBitmap width height, ApiCall.selectObject,
       ApiCall.bitBlt width height, ApiCall.getInfo, ApiCall.getBitmapBits,
       ApiCall.cvtColor, ApiCall.matchTemplate, ApiCall.minMaxLoc]
    let center_x := match_loc.1 + rect.left + ((shape.2 / 2 : Nat) : Int)
    let center_y := match_loc.2 + rect.top + ((shape.1 / 2 : Nat) : Int)
    if confidence < confidence_threshhold then
      ⟨Except.ok none, s, calls⟩
    else
      ⟨Except.ok (some (center_x, center_y)), s, calls⟩

/-- Python property `Instance.hwnd`. -/
def Instance.hwndProp (s : Instance) : Option Int :=
  s.hwnd

/-- Return value of a public operation, unified over the operations. -/
inductive Val where
  | unit
  | pair (a b : Int)
  | optPair (p : Option (Int × Int))
deriving DecidableEq, Repr

/-- A public operation of `Instance` together with its arguments. -/
inductive Op where
  | openApp (exe_path app_title : String)
  | close
  | set_monitor (n : Int)
  | enter_full_screen
  | exit_full_screen
  | get_window_size
  | get_window_position
  | set_window_dimensions (w h : Int)
  | set_window_position (x y : Int)
  | left_click (x y : Int)
  | right_click (x y : Int)
  | left_double_click (x y : Int)
  | right_double_click (x y : Int)
  | press_key (k : Key)
  | typewrite (t : String)
  | find_image_on_screen (p : String) (c : ℚ)
deriving DecidableEq

/-- Whether the operation is one of the window-attached operations (every
public operation except `open`). -/
def Op.requiresWindow : Op → Bool
  | Op.openApp _ _ => false
  | _ => true

/-- Forget the return value of a result, keeping error, state and trace. -/
def Res.toVal {α : Type} (f : α → Val) (r : Res α) : Res Val :=
  ⟨r.ret.map f, r.state, r.calls⟩

/-- Dispatch one public operation on the instance state. -/
def runOp (env : Env) (s : Instance) : Op → Res Val
  | Op.openApp e t => (Instance.openApp env s e t).toVal (fun _ => Val.unit)
  | Op.close => (Instance.close env s).toVal (fun _ => Val.unit)
  | Op.set_monitor n => (Instance.set_monitor env s n).toVal (fun _ => Val.unit)
  | Op.enter_full_screen => (Instance.enter_full_screen env s).toVal (fun _ => Val.unit)
  | Op.exit_full_screen => (Instance.exit_full_screen env s).toVal (fun _ => Val.unit)
  | Op.get_window_size => (Instance.get_window_size env s).toVal (fun p => Val.pair p.1 p.2)
  | Op.get_window_position =>
      (Instance.get_window_position env s).toVal (fun p => Val.pair p.1 p.2)
  | Op.set_window_dimensions w h =>
      (Instance.set_window_dimensions env s w h).toVal (fun _ => Val.unit)
  | Op.set_window_position x y =>
      (Instance.set_window_position env s x y).toVal (fun _ => Val.unit)
  | Op.left_click x y => (Instance.left_click env s x y).toVal (fun _ => Val.unit)
  | Op.right_click x y => (Instance.right_click env s x y).toVal (fun _ => Val.unit)
  | Op.left_double_click x y =>
      (Instance.left_double_click env s x y).toVal (fun _ => Val.unit)
  | Op.right_double_click x y =>
      (Instance.right_double_click env s x y).toVal (fun _ => Val.unit)
  | Op.press_key k => (Instance.press_key env s k).toVal (fun _ => Val.unit)
  | Op.typewrite t => (Instance.typewrite env s t).toVal (fun _ => Val.unit)
  | Op.find_image_on_screen p c =>
      (Instance.find_image_on_screen env s p c).toVal (fun o => Val.optPair o)

/-- Run a sequence of public operations, threading the instance state. -/
def runSeq (env : Env) : Instance → List Op → Instance
  | s, [] => s
  | s, op :: ops => runSeq env (runOp env s op).state ops

/-- Flag test on a `SetWindowPos` flag word. -/
def hasFlag (flags f : Nat) : Bool :=
  flags.land f != 0

/-- Modelled from the documented Win32 semantics of `SetWindowPos` on the
window rectangle: `SWP_NOMOVE` keeps the current position, `SWP_NOSIZE`
keeps the current size; otherwise position and size come from the
arguments. -/
def applySetWindowPos (r : WinRect) (x y cx cy : Int) (flags : Nat) : WinRect :=
  let nl := if hasFlag flags SWP_NOMOVE then r.left else x
  let nt := if hasFlag flags SWP_NOMOVE then r.top else y
  let w := if hasFlag flags SWP_NOSIZE then r.right - r.left else cx
  let h := if hasFlag flags SWP_NOSIZE then r.bottom - r.top else cy
  ⟨nl, nt, nl + w, nt + h⟩

/-- The loop of `Instance._close_handler`, run over discrete ticks: at each
tick it first tests the kill flag (loop condition), then `IsWindow`
(break), and otherwise sleeps one tick.  `killS t` and `isWinS t` are the
values those tests read at tick `t`.  Returns the tick at which the loop
exits (after which the thread calls `close`), or `none` when the fuel runs
out first. -/
def closeHandlerExit (killS isWinS : Nat → Bool) : Nat → Nat → Option Nat
  | 0, _ => none
  | fuel + 1, t =>
      if killS t then some t
      else if isWinS t then closeHandlerExit killS isWinS fuel (t + 1)
      else some t

/-- Count of `sendMessage` calls with a given message code in a trace. -/
def countMsg (calls : List ApiCall) (m : Nat) : Nat :=
  calls.countP (fun c =>
    match c with
    | ApiCall.sendMessage _ msg _ _ => msg == m
    | _ => false)

/-- Count of `matchTemplate` calls in a trace. -/
def countMatchTemplate (calls : List ApiCall) : Nat :=
  calls.countP (fun c =>
    match c with
    | ApiCall.matchTemplate => true
    | _ => false)

/-- Count of `popen` (subprocess start) calls in a trace. -/
def countPopen (calls : List ApiCall) : Nat :=
  calls.countP (fun c =>
    match c with
    | ApiCall.popen _ => true
    | _ => false)

/-- Count of spawned threads in a trace. -/
def countSpawn (calls : List ApiCall) : Nat :=
  calls.countP (fun c =>
    match c with
    | ApiCall.spawnThread => true
    | _ => false)

/-- A concrete environment used to evaluate the development on explicit
inputs: one known executable and one known image on the path, a window
titled `T` with handle `5`, a fixed window rectangle partly off-screen to
the left, two monitors, a 10 by 20 template and a match at `(30, 40)` with
confidence `9/10`. -/
def env0 : Env where
  pathExists := fun p => p == "app.exe" || p == "img.png"
  popenPid := fun _ => 3
  findWindow := fun t => if t == "T" then some 5 else none
  windowRect := fun _ => ⟨-4, 7, 100, 57⟩
  monitors := [⟨0, 0, 1920, 1080⟩, ⟨1920, 0, 3840, 1080⟩]
  imageShape := fun _ => (10, 20)
  matchResult := fun _ _ => (9 / 10, 30, 40)

/-- A concrete attached, not-killed instance state. -/
def s0 : Instance := ⟨some 5, none, false, false⟩

/-- Bound on the number of native API calls each public operation performs,
as established by `claim5_theorem`. -/
def opCallBound : Op → Nat
  | Op.openApp _ _ => 3
  | Op.close => 1
  | Op.set_monitor _ => 2
  | Op.enter_full_screen => 1
  | Op.exit_full_screen => 1
  | Op.get_window_size => 1
  | Op.get_window_position => 1
  | Op.set_window_dimensions _ _ => 2
  | Op.set_window_position _ _ => 1
  | Op.left_click _ _ => 2
  | Op.right_click _ _ => 2
  | Op.left_double_click _ _ => 4
  | Op.right_double_click _ _ => 4
  | Op.press_key _ => 2
  | Op.typewrite t => t.length
  | Op.find_image_on_screen _ _ => 14

/-- The state of an instance re-opened after a close: constructor with a
handle, then `close`, then a successful `open`; the kill flag stays set. -/
def sReopened : Instance :=
  runSeq env0 (Instance.mkInstance (some 7) false).1 [Op.close, Op.openApp "app.exe" "T"]


/-- Helper: no public operation other than `open` and `close` modifies the
instance state. -/
lemma runOp_state_eq (env : Env) (s : Instance) (op : Op)
    (h1 : op.requiresWindow = true) (h2 : op ≠ Op.close) : (runOp env s op).state = s := by
  cases op <;>
    simp_all [runOp, Res.toVal, Op.requiresWindow, Instance.set_monitor,
      Instance.enter_full_screen, Instance.exit_full_screen, Instance.get_window_size,
      Instance.get_window_position, Instance.set_window_dimensions, Instance.set_window_position,
      Instance.left_click, Instance.right_click, Instance.left_double_click,
      Instance.right_double_click, Instance.press_key, Instance.typewrite,
      Instance.find_image_on_screen] <;>
    (repeat' split) <;> rfl

/-- C10: with a window attached, `get_window_position` returns each window
rectangle coordinate clamped below at `0`, so the true position is not
reported for a window lying partly off screen to the left or top. -/
theorem claim10_theorem (env : Env) (s : Instance) (h : hwndTruthy s = true) :
    (Instance.get_window_position env s).ret =
      Except.ok (max (env.windowRect (hwndVal s)).left 0, max (env.windowRect (hwndVal s)).top 0) ∧
    ((env.windowRect (hwndVal s)).left < 0 →
      (Instance.get_window_position env s).ret ≠
        Except.ok ((env.windowRect (hwndVal s)).left, (env.windowRect (hwndVal s)).top)) := by
  constructor
  · simp only [Instance.get_window_position, h, Bool.not_true, Bool.false_eq_true, if_false]
    have hmax : ∀ a : Int, (if 0 ≤ a then a else 0) = a ⊔ 0 := by
      intro a
      rcases le_or_lt 0 a with ha | ha
      · rw [if_pos ha, max_eq_left ha]
      · rw [if_neg (not_le.mpr ha), max_eq_right ha.le]
    rw [hmax, hmax]
  · intro hneg
    simp only [Instance.get_window_position, h, Bool.not_true, Bool.false_eq_true, if_false]
    intro hc
    rw [Except.ok.injEq, Prod.mk.injEq] at hc
    have := hc.1
    split at this <;> omega

/-- Witness for C10 at the concrete environment (window rect starting at
`(-4, 7)`). -/
theorem claim10_witness :
    hwndTruthy s0 = true ∧
    ((Instance.get_window_position env0 s0).ret =
      Except.ok (max (env0.windowRect (hwndVal s0)).left 0, max (env0.windowRect (hwndVal s0)).top 0) ∧
    ((env0.windowRect (hwndVal s0)).left < 0 →
      (Instance.get_window_position env0 s0).ret ≠
        Except.ok ((env0.windowRect (hwndVal s0)).left, (env0.windowRect (hwndVal s0)).top))) :=
  ⟨rfl, claim10_theorem env0 s0 rfl⟩

/-- C8: once the kill flag is set, `close` returns at once with no error,
no state change and no native call, and every successful `close` leaves the
kill flag set, so `close` is idempotent. -/
theorem claim8_theorem (env : Env) (s : Instance) :
    (s.kill = true → Instance.close env s = ⟨Except.ok (), s, []⟩) ∧
    ((Instance.close env s).ret = Except.ok () → (Instance.close env s).state.kill = true) := by
  constructor
  · intro hk
    simp [Instance.close, hk]
  · intro hret
    by_cases hk : s.kill
    · simp [Instance.close, hk]
    · by_cases hw : hwndTruthy s
      · simp [Instance.close, hk, hw]
      · simp [Instance.close, hk, hw] at hret

/-- Witness for C8: a second `close` on the state left by a completed close
is the identity. -/
theorem claim8_witness :
    Instance.close env0 ⟨none, none, true, false⟩ = ⟨Except.ok (), ⟨none, none, true, false⟩, []⟩ :=
  (claim8_theorem env0 ⟨none, none, true, false⟩).1 rfl

/-- C6: with a handle attached, `open` raises `ProcessAlreadyOpened` with
the state unchanged and no subprocess started; with no handle and a missing
path it raises `InvalidPath`, again with the state unchanged and no
subprocess started. -/
theorem claim6_theorem (env : Env) (s : Instance) (exe title : String) :
    (hwndTruthy s = true →
      Instance.openApp env s exe title = ⟨Except.error Err.ProcessAlreadyOpened, s, []⟩ ∧
      countPopen (Instance.openApp env s exe title).calls = 0) ∧
    (hwndTruthy s = false → env.pathExists exe = false →
      Instance.openApp env s exe title = ⟨Except.error Err.InvalidPath, s, []⟩ ∧
      countPopen (Instance.openApp env s exe title).calls = 0) := by
  constructor
  · intro h
    simp [Instance.openApp, h, countPopen]
  · intro h hp
    simp [Instance.openApp, h, hp, countPopen]

/-- Witness for C6 on concrete states: an attached instance and a missing
executable path. -/
theorem claim6_witness :
    (hwndTruthy s0 = true ∧
      (Instance.openApp env0 s0 "app.exe" "T" = ⟨Except.error Err.ProcessAlreadyOpened, s0, []⟩ ∧
       countPopen (Instance.openApp env0 s0 "app.exe" "T").calls = 0)) ∧
    (hwndTruthy ⟨none, none, false, false⟩ = false ∧ env0.pathExists "ghost.exe" = false ∧
      (Instance.openApp env0 ⟨none, none, false, false⟩ "ghost.exe" "T"
          = ⟨Except.error Err.InvalidPath, ⟨none, none, false, false⟩, []⟩ ∧
       countPopen (Instance.openApp env0 ⟨none, none, false, false⟩ "ghost.exe" "T").calls = 0)) :=
  ⟨⟨rfl, (claim6_theorem env0 s0 "app.exe" "T").1 rfl⟩,
   ⟨rfl, rfl, (claim6_theorem env0 ⟨none, none, false, false⟩ "ghost.exe" "T").2 rfl rfl⟩⟩

/-- C7: `set_window_position` performs exactly one `SetWindowPos` carrying
`SWP_NOSIZE`, which under the Win32 flag semantics moves the window without
resizing it; `set_window_dimensions` performs exactly one `SetWindowPos`
carrying `SWP_NOMOVE | SWP_NOZORDER`, which resizes without moving and
without changing the z-order. -/
theorem claim7_theorem (env : Env) (s : Instance) (x y w hgt : Int)
    (h : hwndTruthy s = true) :
    ((Instance.set_window_position env s x y).calls =
       [ApiCall.setWindowPos (hwndVal s) HWND_TOP x y 0 0 SWP_NOSIZE]) ∧
    (∀ rect : WinRect,
       (applySetWindowPos rect x y 0 0 SWP_NOSIZE).right -
           (applySetWindowPos rect x y 0 0 SWP_NOSIZE).left = rect.right - rect.left ∧
       (applySetWindowPos rect x y 0 0 SWP_NOSIZE).bottom -
           (applySetWindowPos rect x y 0 0 SWP_NOSIZE).top = rect.bottom - rect.top ∧
       (applySetWindowPos rect x y 0 0 SWP_NOSIZE).left = x ∧
       (applySetWindowPos rect x y 0 0 SWP_NOSIZE).top = y) ∧
    (∃ px py : Int,
       (Instance.set_window_dimensions env s w hgt).calls =
         [ApiCall.getWindowRect (hwndVal s),
          ApiCall.setWindowPos (hwndVal s) 0 px py w hgt (SWP_NOMOVE ||| SWP_NOZORDER)]) ∧
    (∀ (rect : WinRect) (a b : Int),
       (applySetWindowPos rect a b w hgt (SWP_NOMOVE ||| SWP_NOZORDER)).left = rect.left ∧
       (applySetWindowPos rect a b w hgt (SWP_NOMOVE ||| SWP_NOZORDER)).top = rect.top ∧
       (applySetWindowPos rect a b w hgt (SWP_NOMOVE ||| SWP_NOZORDER)).right -
           (applySetWindowPos rect a b w hgt (SWP_NOMOVE ||| SWP_NOZORDER)).left = w ∧
       (applySetWindowPos rect a b w hgt (SWP_NOMOVE ||| SWP_NOZORDER)).bottom -
           (applySetWindowPos rect a b w hgt (SWP_NOMOVE ||| SWP_NOZORDER)).top = hgt) ∧
    hasFlag (SWP_NOMOVE ||| SWP_NOZORDER) SWP_NOZORDER = true := by
  have hns : hasFlag SWP_NOSIZE SWP_NOMOVE = false := by decide
  have hns2 : hasFlag SWP_NOSIZE SWP_NOSIZE = true := by decide
  have hnm : hasFlag (SWP_NOMOVE ||| SWP_NOZORDER) SWP_NOMOVE = true := by decide
  have hnm2 : hasFlag (SWP_NOMOVE ||| SWP_NOZORDER) SWP_NOSIZE = false := by decide
  refine ⟨?_, ?_, ?_, ?_, by decide⟩
  · simp [Instance.set_window_position, h]
  · intro rect
    simp only [applySetWindowPos, hns, hns2, Bool.false_eq_true, if_false, if_true]
    refine ⟨by ring, by ring, by trivial, by trivial⟩
  · refine ⟨if 0 ≤ (env.windowRect (hwndVal s)).left then (env.windowRect (hwndVal s)).left else 0,
           if 0 ≤ (env.windowRect (hwndVal s)).top then (env.windowRect (hwndVal s)).top else 0, ?_⟩
    simp [Instance.set_window_dimensions, Instance.get_window_position, h]
  · intro rect a b
    simp only [applySetWindowPos, hnm, hnm2, Bool.false_eq_true, if_false, if_true]
    refine ⟨by trivial, by trivial, by ring, by ring⟩

/-- Witness for C7 at concrete coordinates and dimensions. -/
theorem claim7_witness :
    hwndTruthy s0 = true ∧
    (((Instance.set_window_position env0 s0 11 22).calls =
       [ApiCall.setWindowPos (hwndVal s0) HWND_TOP 11 22 0 0 SWP_NOSIZE]) ∧
    (∀ rect : WinRect,
       (applySetWindowPos rect 11 22 0 0 SWP_NOSIZE).right -
           (applySetWindowPos rect 11 22 0 0 SWP_NOSIZE).left = rect.right - rect.left ∧
       (applySetWindowPos rect 11 22 0 0 SWP_NOSIZE).bottom -
           (applySetWindowPos rect 11 22 0 0 SWP_NOSIZE).top = rect.bottom - rect.top ∧
       (applySetWindowPos rect 11 22 0 0 SWP_NOSIZE).left = 11 ∧
       (applySetWindowPos rect 11 22 0 0 SWP_NOSIZE).top = 22) ∧
    (∃ px py : Int,
       (Instance.set_window_dimensions env0 s0 300 200).calls =
         [ApiCall.getWindowRect (hwndVal s0),
          ApiCall.setWindowPos (hwndVal s0) 0 px py 300 200 (SWP_NOMOVE ||| SWP_NOZORDER)]) ∧
    (∀ (rect : WinRect) (a b : Int),
       (applySetWindowPos rect a b 300 200 (SWP_NOMOVE ||| SWP_NOZORDER)).left = rect.left ∧
       (applySetWindowPos rect a b 300 200 (SWP_NOMOVE ||| SWP_NOZORDER)).top = rect.top ∧
       (applySetWindowPos rect a b 300 200 (SWP_NOMOVE ||| SWP_NOZORDER)).right -
           (applySetWindowPos rect a b 300 200 (SWP_NOMOVE ||| SWP_NOZORDER)).left = 300 ∧
       (applySetWindowPos rect a b 300 200 (SWP_NOMOVE ||| SWP_NOZORDER)).bottom -
           (applySetWindowPos rect a b 300 200 (SWP_NOMOVE ||| SWP_NOZORDER)).top = 200) ∧
    hasFlag (SWP_NOMOVE ||| SWP_NOZORDER) SWP_NOZORDER = true) :=
  ⟨rfl, claim7_theorem env0 s0 11 22 300 200 rfl⟩

/-- C9: with a window attached, `press_key` on a nonzero integer sends
exactly two `WM_KEYUP` messages and no `WM_KEYDOWN`; on the integer `0`, or
on a string of length other than one whose lowercase form is neither
`enter` nor `tab`, it sends nothing and raises nothing. -/
theorem claim9_theorem (env : Env) (s : Instance) (h : hwndTruthy s = true) :
    (∀ k : Int, k ≠ 0 →
       countMsg (Instance.press_key env s (Key.int k)).calls WM_KEYUP = 2 ∧
       countMsg (Instance.press_key env s (Key.int k)).calls WM_KEYDOWN = 0 ∧
       (Instance.press_key env s (Key.int k)).calls.length = 2) ∧
    (Instance.press_key env s (Key.int 0) = ⟨Except.ok (), s, []⟩) ∧
    (∀ t : String, t.length ≠ 1 → pyLower t ≠ "enter" → pyLower t ≠ "tab" →
       Instance.press_key env s (Key.str t) = ⟨Except.ok (), s, []⟩) := by
  refine ⟨?_, ?_, ?_⟩
  · intro k hk
    have hk2 : (k != 0) = true := by simpa using hk
    simp [Instance.press_key, h, hk2, countMsg, WM_KEYUP, WM_KEYDOWN]
  · simp [Instance.press_key, h]
  · intro t h1 h2 h3
    have e1 : (t.length == 1) = false := by simpa using h1
    have e2 : (pyLower t == "enter") = false := by simpa using h2
    have e3 : (pyLower t == "tab") = false := by simpa using h3
    simp [Instance.press_key, h, e1, e2, e3]

/-- Witness for C9 at the nonzero key `7`, the key `0` and the string
`xyz`. -/
theorem claim9_witness :
    hwndTruthy s0 = true ∧
    (countMsg (Instance.press_key env0 s0 (Key.int 7)).calls WM_KEYUP = 2 ∧
     countMsg (Instance.press_key env0 s0 (Key.int 7)).calls WM_KEYDOWN = 0 ∧
     (Instance.press_key env0 s0 (Key.int 7)).calls.length = 2) ∧
    (Instance.press_key env0 s0 (Key.int 0) = ⟨Except.ok (), s0, []⟩) ∧
    (Instance.press_key env0 s0 (Key.str "xyz") = ⟨Except.ok (), s0, []⟩) :=
  ⟨rfl, (claim9_theorem env0 s0 rfl).1 7 (by decide),
    (claim9_theorem env0 s0 rfl).2.1,
    (claim9_theorem env0 s0 rfl).2.2 "xyz" (by decide) (by decide) (by decide)⟩

/-- C2: with a window attached and an existing image path,
`find_image_on_screen` performs exactly one `matchTemplate` call, returns
`none` when the confidence is strictly below the threshold, and otherwise
returns the match location shifted by the window rectangle origin plus half
the template dimensions. -/
theorem claim2_theorem (env : Env) (s : Instance) (p : String) (c : ℚ)
    (h1 : hwndTruthy s = true) (h2 : env.pathExists p = true) :
    countMatchTemplate (Instance.find_image_on_screen env s p c).calls = 1 ∧
    ((env.matchResult (hwndVal s) p).1 < c →
       (Instance.find_image_on_screen env s p c).ret = Except.ok none) ∧
    (c ≤ (env.matchResult (hwndVal s) p).1 →
       (Instance.find_image_on_screen env s p c).ret =
         Except.ok (some
           ((env.matchResult (hwndVal s) p).2.1 + (env.windowRect (hwndVal s)).left +
              (((env.imageShape p).2 / 2 : Nat) : Int),
            (env.matchResult (hwndVal s) p).2.2 + (env.windowRect (hwndVal s)).top +
              (((env.imageShape p).1 / 2 : Nat) : Int)))) := by
  refine ⟨?_, ?_, ?_⟩
  · simp [Instance.find_image_on_screen, h1, h2, countMatchTemplate]
    split <;> simp [List.countP, List.countP.go]
  · intro hc
    simp [Instance.find_image_on_screen, h1, h2, hc]
  · intro hc
    simp [Instance.find_image_on_screen, h1, h2, not_lt.mpr hc]

/-- Witness for C2 at the concrete environment: confidence `9/10` against
threshold `1/2` yields the centre `(36, 52)`. -/
theorem claim2_witness :
    hwndTruthy s0 = true ∧ env0.pathExists "img.png" = true ∧
    (countMatchTemplate (Instance.find_image_on_screen env0 s0 "img.png" (1/2)).calls = 1 ∧
     ((env0.matchResult (hwndVal s0) "img.png").1 < (1/2 : ℚ) →
        (Instance.find_image_on_screen env0 s0 "img.png" (1/2)).ret = Except.ok none) ∧
     ((1/2 : ℚ) ≤ (env0.matchResult (hwndVal s0) "img.png").1 →
        (Instance.find_image_on_screen env0 s0 "img.png" (1/2)).ret =
          Except.ok (some
            ((env0.matchResult (hwndVal s0) "img.png").2.1 + (env0.windowRect (hwndVal s0)).left +
               (((env0.imageShape "img.png").2 / 2 : Nat) : Int),
             (env0.matchResult (hwndVal s0) "img.png").2.2 + (env0.windowRect (hwndVal s0)).top +
               (((env0.imageShape "img.png").1 / 2 : Nat) : Int))))) :=
  ⟨rfl, rfl, claim2_theorem env0 s0 "img.png" (1/2) rfl rfl⟩

/-- C1 counterexample: after a completed close the handle is `None`, yet a
further `close` returns without raising `NoOpenedProcess` (the kill-flag
early return), refuting the claim for the operation `close`. -/
theorem claim1_counterexample :
    (runSeq env0 (Instance.mkInstance (some 1) false).1 [Op.close]).hwnd = none ∧
    runOp env0 (runSeq env0 (Instance.mkInstance (some 1) false).1 [Op.close]) Op.close
      = ⟨Except.ok Val.unit, runSeq env0 (Instance.mkInstance (some 1) false).1 [Op.close], []⟩ := by
  decide

/-- C1 as amended: with no handle attached, every window operation other
than `close` raises `NoOpenedProcess` and leaves the state unchanged with
no native call; `close` does so exactly when the kill flag is unset, and
returns silently with the state unchanged when it is set. -/
theorem claim1_theorem (env : Env) (s : Instance) (op : Op) (hn : s.hwnd = none) :
    (op.requiresWindow = true → op ≠ Op.close →
       runOp env s op = ⟨Except.error Err.NoOpenedProcess, s, []⟩) ∧
    (s.kill = false → runOp env s Op.close = ⟨Except.error Err.NoOpenedProcess, s, []⟩) ∧
    (s.kill = true → runOp env s Op.close = ⟨Except.ok Val.unit, s, []⟩) := by
  have hw : hwndTruthy s = false := by simp [hwndTruthy, hn, optTruthy]
  refine ⟨?_, ?_, ?_⟩
  · intro h1 h2
    cases op <;>
      simp_all [runOp, Res.toVal, Except.map, Op.requiresWindow, Instance.set_monitor,
        Instance.enter_full_screen, Instance.exit_full_screen, Instance.get_window_size,
        Instance.get_window_position, Instance.set_window_dimensions, Instance.set_window_position,
        Instance.left_click, Instance.right_click, Instance.left_double_click,
        Instance.right_double_click, Instance.press_key, Instance.typewrite,
        Instance.find_image_on_screen]
  · intro hk
    simp [runOp, Res.toVal, Except.map, Instance.close, hk, hw]
  · intro hk
    simp [runOp, Res.toVal, Except.map, Instance.close, hk]

/-- Witness for C1 (amended) at a detached state with the kill flag unset:
`typewrite` and `close` both raise `NoOpenedProcess` without state change. -/
theorem claim1_witness :
    ((⟨none, some 9, false, false⟩ : Instance).hwnd = none) ∧
    (Op.typewrite "hi").requiresWindow = true ∧ (Op.typewrite "hi") ≠ Op.close ∧
    runOp env0 ⟨none, some 9, false, false⟩ (Op.typewrite "hi")
      = ⟨Except.error Err.NoOpenedProcess, ⟨none, some 9, false, false⟩, []⟩ ∧
    runOp env0 ⟨none, some 9, false, false⟩ Op.close
      = ⟨Except.error Err.NoOpenedProcess, ⟨none, some 9, false, false⟩, []⟩ :=
  ⟨rfl, rfl, by decide,
   (claim1_theorem env0 ⟨none, some 9, false, false⟩ (Op.typewrite "hi") rfl).1 rfl (by decide),
   (claim1_theorem env0 ⟨none, some 9, false, false⟩ (Op.typewrite "hi") rfl).2.1 rfl⟩

/-- Helper: with a window attached, `typewrite` performs exactly one
native call per character of the text. -/
lemma typewrite_calls_length (env : Env) (s : Instance) (t : String) (h : hwndTruthy s = true) :
    (Instance.typewrite env s t).calls.length = t.length := by
  simp only [Instance.typewrite, h, Bool.not_true, Bool.false_eq_true, if_false]
  rw [List.length_map]
  rfl

/-- C5 counterexample: on an attached instance, `typewrite` of the
four-character text `abcd` performs four native API calls, more than the
three the claim allows. -/
theorem claim5_counterexample :
    hwndTruthy s0 = true ∧
    (runOp env0 s0 (Op.typewrite "abcd")).calls.length = 4 ∧ 3 < 4 := by
  decide

/-- C5 as amended: the native call count of each public operation is
bounded per operation (one to three for the simple operations, four for
the double clicks, fourteen for `find_image_on_screen`), while `typewrite`
performs exactly one call per character of its text and is therefore
unbounded over its inputs. -/
theorem claim5_theorem (env : Env) (s : Instance) (op : Op) :
    (runOp env s op).calls.length ≤ opCallBound op ∧
    (hwndTruthy s = true → ∀ t : String,
       (runOp env s (Op.typewrite t)).calls.length = t.length) := by
  constructor
  · cases op
    case openApp e t =>
      simp only [runOp, Res.toVal, opCallBound, Instance.openApp]
      by_cases h : hwndTruthy s <;> simp [h]
      by_cases hp : env.pathExists e <;> simp [hp]
      cases hfw : env.findWindow t <;> simp [hfw]
      split <;> simp
    case close =>
      simp only [runOp, Res.toVal, opCallBound, Instance.close]
      by_cases hk : s.kill <;> simp [hk]
      by_cases h : hwndTruthy s <;> simp [h]
      cases s.process <;> simp
    case set_monitor n =>
      simp only [runOp, Res.toVal, opCallBound, Instance.set_monitor]
      by_cases h : hwndTruthy s <;> simp [h]
      split <;> simp
    case enter_full_screen =>
      simp only [runOp, Res.toVal, opCallBound, Instance.enter_full_screen]
      by_cases h : hwndTruthy s <;> simp [h]
    case exit_full_screen =>
      simp only [runOp, Res.toVal, opCallBound, Instance.exit_full_screen]
      by_cases h : hwndTruthy s <;> simp [h]
    case get_window_size =>
      simp only [runOp, Res.toVal, opCallBound, Instance.get_window_size]
      by_cases h : hwndTruthy s <;> simp [h]
    case get_window_position =>
      simp only [runOp, Res.toVal, opCallBound, Instance.get_window_position]
      by_cases h : hwndTruthy s <;> simp [h]
    case set_window_dimensions w hgt =>
      simp only [runOp, Res.toVal, opCallBound, Instance.set_window_dimensions]
      by_cases h : hwndTruthy s <;> simp [h, Instance.get_window_position]
    case set_window_position x y =>
      simp only [runOp, Res.toVal, opCallBound, Instance.set_window_position]
      by_cases h : hwndTruthy s <;> simp [h]
    case left_click x y =>
      simp only [runOp, Res.toVal, opCallBound, Instance.left_click]
      by_cases h : hwndTruthy s <;> simp [h]
    case right_click x y =>
      simp only [runOp, Res.toVal, opCallBound, Instance.right_click]
      by_cases h : hwndTruthy s <;> simp [h]
    case left_double_click x y =>
      simp only [runOp, Res.toVal, opCallBound, Instance.left_double_click]
      by_cases h : hwndTruthy s <;> simp [h, Instance.left_click]
    case right_double_click x y =>
      simp only [runOp, Res.toVal, opCallBound, Instance.right_double_click]
      by_cases h : hwndTruthy s <;> simp [h, Instance.right_click]
    case press_key k =>
      simp only [runOp, Res.toVal, opCallBound, Instance.press_key]
      by_cases h : hwndTruthy s <;> simp [h]
      cases k
      · simp only []
        split <;> simp
      · simp only []
        (repeat' split) <;> simp
    case typewrite t =>
      by_cases h : hwndTruthy s
      · simp only [runOp, Res.toVal, opCallBound]
        rw [typewrite_calls_length env s t h]
      · simp [runOp, Res.toVal, opCallBound, Instance.typewrite, h]
    case find_image_on_screen p c =>
      simp only [runOp, Res.toVal, opCallBound, Instance.find_image_on_screen]
      by_cases h : hwndTruthy s
      · simp only [h, Bool.not_true, Bool.false_eq_true, if_false]
        by_cases hp : env.pathExists p
        · simp only [hp, Bool.not_true, Bool.false_eq_true, if_false]
          split <;> simp
        · simp [hp]
      · simp [h]
  · intro h t
    simp only [runOp, Res.toVal]
    rw [typewrite_calls_length env s t h]

/-- Witness for C5 (amended): the call-count bound evaluated on the
concrete image search, and the exact per-character count of `typewrite`. -/
theorem claim5_witness :
    (runOp env0 s0 (Op.find_image_on_screen "img.png" (1/2))).calls.length ≤
      opCallBound (Op.find_image_on_screen "img.png" (1/2)) ∧
    hwndTruthy s0 = true ∧
    (runOp env0 s0 (Op.typewrite "abcd")).calls.length = "abcd".length :=
  ⟨(claim5_theorem env0 s0 (Op.find_image_on_screen "img.png" (1/2))).1, rfl,
   (claim5_theorem env0 s0 (Op.find_image_on_screen "img.png" (1/2))).2 rfl "abcd"⟩

/-- C3 counterexample: one `open` call on a fresh instance, with an existing
executable but no window found for the title, reaches a state holding a
subprocess reference while the handle is `None`, refuting the invariant. -/
theorem claim3_counterexample :
    (runSeq env0 (Instance.mkInstance none false).1 [Op.openApp "app.exe" "X"]).process = some 3 ∧
    (runSeq env0 (Instance.mkInstance none false).1 [Op.openApp "app.exe" "X"]).hwnd = none := by
  decide

/-- C3 as amended: a fresh instance holds no subprocess reference; every
operation that does not raise `NoHwnd` preserves the property that a
subprocess reference is held only together with a window handle (an `open`
raising `NoHwnd` breaks it); and a close that passes the kill-flag check
succeeds and clears both the handle and the subprocess reference. -/
theorem claim3_theorem (env : Env) (s : Instance) (op : Op) :
    (∀ (hw : Option Int) (d : Bool), (Instance.mkInstance hw d).1.process = none) ∧
    ((s.process.isSome = true → s.hwnd.isSome = true) →
       (runOp env s op).ret ≠ Except.error Err.NoHwnd →
       ((runOp env s op).state.process.isSome = true →
          (runOp env s op).state.hwnd.isSome = true)) ∧
    (hwndTruthy s = true → s.kill = false →
       (Instance.close env s).ret = Except.ok () ∧
       (Instance.close env s).state.hwnd = none ∧
       (Instance.close env s).state.process = none) := by
  refine ⟨fun hw d => rfl, ?_, ?_⟩
  · intro hinv hne
    cases op
    case openApp e t =>
      simp only [runOp, Res.toVal] at hne ⊢
      by_cases h : hwndTruthy s
      · simp [Instance.openApp, h]
        exact hinv
      · by_cases hp : env.pathExists e
        · cases hfw : env.findWindow t
          · simp [Instance.openApp, h, hp, hfw, Except.map] at hne
          · rename_i a
            by_cases h0 : a = 0
            · simp [Instance.openApp, h, hp, hfw, h0, Except.map] at hne
            · have h0b : (a == 0) = false := by simpa using h0
              simp [Instance.openApp, h, hp, hfw, h0b]
        · simp [Instance.openApp, h, hp]
          exact hinv
    case close =>
      by_cases hk : s.kill
      · simp [runOp, Res.toVal, Instance.close, hk]
        exact hinv
      · by_cases h : hwndTruthy s
        · simp [runOp, Res.toVal, Instance.close, hk, h]
        · simp [runOp, Res.toVal, Instance.close, hk, h]
          exact hinv
    case set_monitor n =>
      rw [runOp_state_eq env s (Op.set_monitor n) rfl (by intro hh; exact Op.noConfusion hh)]
      exact hinv
    case enter_full_screen =>
      rw [runOp_state_eq env s (Op.enter_full_screen) rfl (by intro hh; exact Op.noConfusion hh)]
      exact hinv
    case exit_full_screen =>
      rw [runOp_state_eq env s (Op.exit_full_screen) rfl (by intro hh; exact Op.noConfusion hh)]
      exact hinv
    case get_window_size =>
      rw [runOp_state_eq env s (Op.get_window_size) rfl (by intro hh; exact Op.noConfusion hh)]
      exact hinv
    case get_window_position =>
      rw [runOp_state_eq env s (Op.get_window_position) rfl (by intro hh; exact Op.noConfusion hh)]
      exact hinv
    case set_window_dimensions w hgt =>
      rw [runOp_state_eq env s (Op.set_window_dimensions w hgt) rfl (by intro hh; exact Op.noConfusion hh)]
      exact hinv
    case set_window_position x y =>
      rw [runOp_state_eq env s (Op.set_window_position x y) rfl (by intro hh; exact Op.noConfusion hh)]
      exact hinv
    case left_click x y =>
      rw [runOp_state_eq env s (Op.left_click x y) rfl (by intro hh; exact Op.noConfusion hh)]
      exact hinv
    case right_click x y =>
      rw [runOp_state_eq env s (Op.right_click x y) rfl (by intro hh; exact Op.noConfusion hh)]
      exact hinv
    case left_double_click x y =>
      rw [runOp_state_eq env s (Op.left_double_click x y) rfl (by intro hh; exact Op.noConfusion hh)]
      exact hinv
    case right_double_click x y =>
      rw [runOp_state_eq env s (Op.right_double_click x y) rfl (by intro hh; exact Op.noConfusion hh)]
      exact hinv
    case press_key k =>
      rw [runOp_state_eq env s (Op.press_key k) rfl (by intro hh; exact Op.noConfusion hh)]
      exact hinv
    case typewrite t =>
      rw [runOp_state_eq env s (Op.typewrite t) rfl (by intro hh; exact Op.noConfusion hh)]
      exact hinv
    case find_image_on_screen p c =>
      rw [runOp_state_eq env s (Op.find_image_on_screen p c) rfl (by intro hh; exact Op.noConfusion hh)]
      exact hinv
  · intro h hk
    simp [Instance.close, hk, h]

/-- Witness for C3 (amended) on concrete states: the fresh instance, a
read-only operation on an attached state, and a real close. -/
theorem claim3_witness :
    (Instance.mkInstance (some 4) false).1.process = none ∧
    ((runOp env0 s0 Op.get_window_size).state.process.isSome = true →
       (runOp env0 s0 Op.get_window_size).state.hwnd.isSome = true) ∧
    ((Instance.close env0 s0).ret = Except.ok () ∧
     (Instance.close env0 s0).state.hwnd = none ∧
     (Instance.close env0 s0).state.process = none) :=
  ⟨(claim3_theorem env0 s0 Op.get_window_size).1 (some 4) false,
   (claim3_theorem env0 s0 Op.get_window_size).2.1 (by decide) (by decide),
   (claim3_theorem env0 s0 Op.get_window_size).2.2 rfl rfl⟩

/-- Helper: with the kill flag never set, the close-handler loop exits at
the first tick at which the window is invalid. -/
lemma closeHandlerExit_detect (isWinS : Nat → Bool) :
    ∀ (fuel t : Nat), isWinS (t + fuel) = false →
    ∃ u, closeHandlerExit (fun _ => false) isWinS (fuel + 1) t = some u ∧
      isWinS u = false ∧ u ≤ t + fuel := by
  intro fuel
  induction fuel with
  | zero =>
    intro t h
    refine ⟨t, ?_, by simpa using h, le_refl t⟩
    simp only [closeHandlerExit]
    have hw : isWinS t = false := by simpa using h
    simp [hw]
  | succ n ih =>
    intro t h
    by_cases hw : isWinS t
    · have h2 : isWinS (t + 1 + n) = false := by
        have he : t + 1 + n = t + (n + 1) := by omega
        rw [he]
        exact h
      obtain ⟨u, hu, hfu, hle⟩ := ih (t + 1) h2
      refine ⟨u, ?_, hfu, by omega⟩
      simp only [closeHandlerExit, hw]
      simpa using hu
    · refine ⟨t, ?_, by simpa using hw, by omega⟩
      simp only [closeHandlerExit]
      simp [hw]

/-- C4 counterexample: an instance re-opened after a close is attached via
a successful `open` but carries the kill flag, so its polling thread exits
at tick `0` while the window is still valid, and the `close` it invokes is
a no-op that leaves the handle attached; the closure at tick `1` is never
detected. -/
theorem claim4_counterexample :
    sReopened.hwnd = some 5 ∧ sReopened.kill = true ∧
    (Instance.openApp env0 ⟨none, none, true, false⟩ "app.exe" "T").ret = Except.ok () ∧
    closeHandlerExit (fun _ => sReopened.kill) (fun t => decide (t < 1)) 10 0 = some 0 ∧
    decide ((0 : Nat) < 1) = true ∧ decide ((1 : Nat) < 1) = false ∧
    Instance.close env0 sReopened = ⟨Except.ok (), sReopened, []⟩ := by
  decide

/-- C4 as amended: the constructor spawns exactly one polling thread when
given a truthy handle, and a successful `open` spawns exactly one; when
the kill flag is unset at spawn, the polling loop exits at a tick at which
the window is invalid, no later than the first such tick, and the `close`
it then invokes detaches the handle; with the kill flag already set
(instance re-opened after a close) the detection fails, per the
counterexample. -/
theorem claim4_theorem :
    (∀ (hw : Option Int) (d : Bool),
       countSpawn (Instance.mkInstance hw d).2 = if optTruthy hw then 1 else 0) ∧
    (∀ (env : Env) (s : Instance) (e t : String),
       (Instance.openApp env s e t).ret = Except.ok () →
       countSpawn (Instance.openApp env s e t).calls = 1) ∧
    (∀ (isWinS : Nat → Bool) (m : Nat), isWinS m = false →
       ∃ u, closeHandlerExit (fun _ => false) isWinS (m + 1) 0 = some u ∧
         isWinS u = false ∧ u ≤ m) ∧
    (∀ (env : Env) (s : Instance), hwndTruthy s = true → s.kill = false →
       (Instance.close env s).state.hwnd = none) := by
  refine ⟨?_, ?_, ?_, ?_⟩
  · intro hw d
    cases hhw : optTruthy hw <;> simp [Instance.mkInstance, hhw, countSpawn]
  · intro env s e t hok
    by_cases h : hwndTruthy s
    · simp [Instance.openApp, h] at hok
    · by_cases hp : env.pathExists e
      · cases hfw : env.findWindow t
        · simp [Instance.openApp, h, hp, hfw] at hok
        · rename_i a
          by_cases h0 : a = 0
          · simp [Instance.openApp, h, hp, hfw, h0] at hok
          · have h0b : (a == 0) = false := by simpa using h0
            simp [Instance.openApp, h, hp, hfw, h0b, countSpawn]
      · simp [Instance.openApp, h, hp] at hok
  · intro isWinS m h
    have := closeHandlerExit_detect isWinS m 0 (by simpa using h)
    simpa using this
  · intro env s h hk
    simp [Instance.close, hk, h]

/-- Witness for C4 (amended) at concrete inputs: one spawn from the
constructor and from a successful open, detection for a window invalid
from tick 3, and the close effect on an attached unkilled state. -/
theorem claim4_witness :
    countSpawn (Instance.mkInstance (some 7) false).2 = (if optTruthy (some 7) then 1 else 0) ∧
    countSpawn (Instance.openApp env0 ⟨none, none, false, false⟩ "app.exe" "T").calls = 1 ∧
    (∃ u, closeHandlerExit (fun _ => false) (fun t => decide (t < 3)) (3 + 1) 0 = some u ∧
       (fun t : Nat => decide (t < 3)) u = false ∧ u ≤ 3) ∧
    (Instance.close env0 s0).state.hwnd = none :=
  ⟨claim4_theorem.1 (some 7) false,
   claim4_theorem.2.1 env0 ⟨none, none, false, false⟩ "app.exe" "T" rfl,
   claim4_theorem.2.2.1 (fun t => decide (t < 3)) 3 (by decide),
   claim4_theorem.2.2.2 env0 s0 rfl rfl⟩
